import Mathlib

/-!
Verification of the GAIM_Lab scoring core against its specification.

This file embeds, over exact rationals, the scoring core of
`src/core/agents/pedagogy_agent.py` (binning, sigmoid interpolation,
preset clamping, confidence aggregation, grading, the seven dimension
scorers and `PedagogyAgent.evaluate`) and the linear-trend computation of
`src/core/growth_analyzer.py`, and proves or refutes the specification
claims about them.

Modelling conventions:
* Python floats are modelled as `ℚ` (the scoring core only uses +, -, *, /,
  comparisons and decimal rounding, all exact on `ℚ`).
* Python's `round(x, d)` (banker's rounding) is modelled by `pyround`.
* `math.exp` (used only inside the optional sigmoid mapping) is passed in
  as an explicit function parameter `mexp`; no claim below depends on its
  values.
* Each analyzer summary dict is modelled as a record of `Option` fields
  (over the documented keys), plus a `hasError` flag recording the presence
  of an `"error"` key.  Dict truthiness ("non-empty") is `¬ isEmpty`.
* The repository ships no `rubric_config.yaml`, so `_load_config` returns
  the `DEFAULT_*` tables; the loaded configuration is modelled by
  `LoadedConfig` and the construction by `PedagogyAgent.init`.
-/

namespace GAIM

/-- Banker's rounding of a rational to an integer (Python's `round`).
With `x = num/den` in lowest terms (`den > 0`), the floor is
`num.fdiv den`, the fractional remainder is `num.fmod den / den`, and the
half-way comparison `frac ⋚ 1/2` is `2 * (num.fmod den) ⋚ den`. -/
def roundHalfEven (x : ℚ) : ℤ :=
  let f : ℤ := x.num.fdiv x.den
  let r : ℤ := x.num.fmod x.den
  if 2 * r < (x.den : ℤ) then f
  else if (x.den : ℤ) < 2 * r then f + 1
  else if f % 2 = 0 then f else f + 1

/-- Python's `round(x, d)` on exact rationals. -/
def pyround (x : ℚ) (d : ℕ) : ℚ :=
  (roundHalfEven (x * 10 ^ d) : ℚ) / 10 ^ d

/-- Python's `f"{x:.1%}"`: the value as a percentage with one decimal digit. -/
def formatPercent1 (x : ℚ) : String :=
  let y : ℤ := roundHalfEven (x * 1000)
  let sign := if y < 0 then "-" else ""
  let a := y.natAbs
  sign ++ toString (a / 10) ++ "." ++ toString (a % 10) ++ "%"

/-- `needle` is a prefix of `hay` (on character lists). -/
def charsPrefix : List Char → List Char → Bool
  | [], _ => true
  | _ :: _, [] => false
  | a :: as, b :: bs => a == b && charsPrefix as bs

/-- `needle` occurs as a contiguous substring of `hay` (on character lists). -/
def charsSub (needle : List Char) : List Char → Bool
  | [] => charsPrefix needle []
  | b :: bs => charsPrefix needle (b :: bs) || charsSub needle bs

/-- Python's `needle in hay` on strings (substring containment). -/
def strIn (needle hay : String) : Bool :=
  charsSub needle.toList hay.toList

/-! ### Built-in default configuration tables (module constants) -/

/-- `DEFAULT_DIMENSIONS`: dimension name ↦ (weight, theory text). -/
def DEFAULT_DIMENSIONS : List (String × ℚ × String) :=
  [("수업 전문성", (20, "구성주의 학습이론 - 학습 목표의 명확한 제시는 학생의 인지적 스캐폴딩을 제공합니다.")),
   ("교수학습 방법", (20, "다중지능이론(Gardner) - 다양한 교수법은 학생의 다양한 학습 양식에 대응합니다.")),
   ("판서 및 언어", (15, "Vygotsky의 근접발달영역(ZPD) - 명확한 언어 사용은 효과적인 비계설정의 핵심입니다.")),
   ("수업 태도", (15, "Bandura의 사회학습이론 - 교사의 열정과 태도는 학생의 학습 동기에 직접적으로 영향을 미칩니다.")),
   ("학생 참여", (15, "구성주의적 참여이론(Engagement Theory) - 학생의 능동적 참여는 심층 학습의 핵심 요소입니다.")),
   ("시간 배분", (10, "Keller의 ARCS 모델 - 체계적 시간 배분은 학습자의 주의와 만족에 기여합니다.")),
   ("창의성", (5, "창의적 문제해결(Torrance) - 독창적 수업 설계는 학생의 확산적 사고를 자극합니다."))]

/-- Per-dimension preset record: anchor `base` and allowed deviation. -/
structure Preset where
  base : ℚ
  adjust_range : ℚ
deriving DecidableEq, Repr

/-- `DEFAULT_PRESETS`: preset name ↦ (dimension ↦ preset record). -/
def DEFAULT_PRESETS : List (String × List (String × Preset)) :=
  [("default",
    [("수업 전문성", ⟨14.0, 7.0⟩),
     ("교수학습 방법", ⟨14.0, 7.0⟩),
     ("판서 및 언어", ⟨10.0, 6.0⟩),
     ("수업 태도", ⟨10.0, 6.0⟩),
     ("학생 참여", ⟨10.0, 6.0⟩),
     ("시간 배분", ⟨7.0, 4.0⟩),
     ("창의성", ⟨3.0, 2.5⟩)])]

/-- `DEFAULT_GRADING`: grade ↦ threshold, in insertion order. -/
def DEFAULT_GRADING : List (String × ℚ) :=
  [("A+", 90), ("A", 85), ("A-", 80), ("B+", 75), ("B", 70),
   ("B-", 65), ("C+", 60), ("C", 55), ("C-", 50), ("D", 0)]

/-- `DEFAULT_BINNING`: metric name ↦ (label ↦ interval), in insertion order. -/
def DEFAULT_BINNING : List (String × List (String × ℚ × ℚ)) :=
  [("gesture_active_ratio",
    [("INACTIVE", (0.0, 0.15)), ("LOW", (0.15, 0.35)),
     ("MODERATE", (0.35, 0.55)), ("ACTIVE", (0.55, 1.0))]),
   ("eye_contact_ratio",
    [("POOR", (0.0, 0.2)), ("LOW", (0.2, 0.4)),
     ("MODERATE", (0.4, 0.6)), ("GOOD", (0.6, 0.8)), ("EXCELLENT", (0.8, 1.0))]),
   ("filler_ratio",
    [("CLEAN", (0.0, 0.02)), ("GOOD", (0.02, 0.035)),
     ("MODERATE", (0.035, 0.05)), ("HIGH", (0.05, 0.07)), ("EXCESSIVE", (0.07, 1.0))]),
   ("monotone_ratio",
    [("EXPRESSIVE", (0.0, 0.2)), ("VARIED", (0.2, 0.35)),
     ("MODERATE", (0.35, 0.5)), ("MONOTONE", (0.5, 0.7)), ("FLAT", (0.7, 1.0))]),
   ("teacher_ratio",
    [("STUDENT_LED", (0.0, 0.5)), ("BALANCED", (0.5, 0.65)),
     ("TEACHER_MODERATE", (0.65, 0.8)), ("TEACHER_DOMINANT", (0.8, 0.92)),
     ("LECTURE_ONLY", (0.92, 1.0))]),
   ("speaking_wpm",
    [("VERY_SLOW", (0, 40)), ("SLOW", (40, 60)), ("MODERATE", (60, 80)),
     ("GOOD", (80, 110)), ("FAST", (110, 145)), ("VERY_FAST", (145, 999))])]

/-- `DEFAULT_CONFIDENCE_WEIGHTS`: source name ↦ weight. -/
def DEFAULT_CONFIDENCE_WEIGHTS : List (String × ℚ) :=
  [("vision", 0.20), ("stt", 0.30), ("vibe", 0.15),
   ("content", 0.15), ("discourse", 0.20)]

/-! ### `_bin` and `_sigmoid_map` (module-level helpers) -/

/-- `_bin(value, bins)`: first label whose half-open interval `[low, high)`
contains `value`; otherwise the last label.  An empty table raises
`IndexError` in the source, modelled as `none`. -/
def pyBin (value : ℚ) (bins : List (String × ℚ × ℚ)) : Option String :=
  match bins.find? (fun b => decide (b.2.1 ≤ value) && decide (value < b.2.2)) with
  | some b => some b.1
  | none => bins.getLast?.map (fun b => b.1)

/-- `_sigmoid_map(value, bins, scores, steepness)`.  `mexp` stands for
`math.exp`; with fewer than two bins it is never consulted. -/
def sigmoidMap (mexp : ℚ → ℚ) (value : ℚ) (bins : List (String × ℚ × ℚ))
    (scores : List (String × ℚ)) (steepness : ℚ) : ℚ :=
  match bins with
  | [] => 0.0
  | [b] => ((scores.lookup b.1).getD 0.0)
  | _ =>
    let centers : List (ℚ × ℚ) :=
      bins.map (fun b => ((b.2.1 + b.2.2) / 2, (scores.lookup b.1).getD 0.0))
    let wt : ℚ × ℚ → ℚ := fun c =>
      1.0 / (1.0 + mexp (steepness * |value - c.1| - steepness * 0.1))
    let total_weight : ℚ := (centers.map wt).sum
    let weighted_score : ℚ := (centers.map (fun c => wt c * c.2)).sum
    if total_weight = 0 then
      match centers with
      | [] => 0.0
      | c :: cs =>
        (cs.foldl (fun acc c' => if |value - c'.1| < |value - acc.1| then c' else acc) c).2
    else weighted_score / total_weight

/-- Stable insertion into a list sorted descending by the numeric value:
the new element goes before the first element with a value ≤ its own. -/
def insertDesc (x : String × ℚ) : List (String × ℚ) → List (String × ℚ)
  | [] => [x]
  | y :: ys => if y.2 ≤ x.2 then x :: y :: ys else y :: insertDesc x ys

/-- `sorted(items, key=lambda kv: kv[1], reverse=True)`: stable descending
sort by value (insertion sort; stability matches Python's `sorted`). -/
def sortDesc : List (String × ℚ) → List (String × ℚ)
  | [] => []
  | x :: xs => insertDesc x (sortDesc xs)

/-! ### Input records (analyzer summary dicts, §6 of the spec) -/

/-- `vision_summary` dict. -/
structure VisionSummary where
  gesture_active_ratio : Option ℚ
  eye_contact_ratio : Option ℚ
  face_detection_ratio : Option ℚ
  avg_expression_score : Option ℚ
  avg_body_openness : Option ℚ
  avg_motion_score : Option ℚ
  hasError : Bool
deriving DecidableEq, Repr

def VisionSummary.isEmpty (v : VisionSummary) : Bool :=
  v.gesture_active_ratio.isNone && v.eye_contact_ratio.isNone &&
  v.face_detection_ratio.isNone && v.avg_expression_score.isNone &&
  v.avg_body_openness.isNone && v.avg_motion_score.isNone && !v.hasError

def emptyVision : VisionSummary := ⟨none, none, none, none, none, none, false⟩

/-- `content_summary` dict. -/
structure ContentSummary where
  slide_detected_ratio : Option ℚ
  speaker_visible_ratio : Option ℚ
  avg_color_contrast : Option ℚ
  avg_complexity : Option ℚ
  hasError : Bool
deriving DecidableEq, Repr

def ContentSummary.isEmpty (c : ContentSummary) : Bool :=
  c.slide_detected_ratio.isNone && c.speaker_visible_ratio.isNone &&
  c.avg_color_contrast.isNone && c.avg_complexity.isNone && !c.hasError

def emptyContent : ContentSummary := ⟨none, none, none, none, false⟩

/-- `energy_distribution` nested dict. -/
structure EnergyDist where
  low : Option ℚ
  normal : Option ℚ
  high : Option ℚ
deriving DecidableEq, Repr

def emptyED : EnergyDist := ⟨none, none, none⟩

/-- Python truthiness of the `energy_distribution` dict. -/
def EnergyDist.nonEmpty (e : EnergyDist) : Bool :=
  e.low.isSome || e.normal.isSome || e.high.isSome

/-- `vibe_summary` dict. -/
structure VibeSummary where
  avg_silence_ratio : Option ℚ
  monotone_ratio : Option ℚ
  energy_distribution : Option EnergyDist
  hasError : Bool
deriving DecidableEq, Repr

def VibeSummary.isEmpty (v : VibeSummary) : Bool :=
  v.avg_silence_ratio.isNone && v.monotone_ratio.isNone &&
  v.energy_distribution.isNone && !v.hasError

def emptyVibe : VibeSummary := ⟨none, none, none, false⟩

/-- `stt_result` dict. -/
structure SttResult where
  word_count : Option ℚ
  duration_seconds : Option ℚ
  speaking_rate : Option ℚ
  filler_ratio : Option ℚ
  speaking_pattern : Option String
  segment_count : Option ℚ
  student_turns : Option ℚ
  interaction_count : Option ℚ
  teacher_ratio : Option ℚ
  question_count : Option ℚ
  hasError : Bool
deriving DecidableEq, Repr

def emptyStt : SttResult :=
  ⟨none, none, none, none, none, none, none, none, none, none, false⟩

/-- `question_types` nested dict. -/
structure QuestionTypes where
  open_ended : Option ℚ
  closed : Option ℚ
  scaffolding : Option ℚ
  rhetorical : Option ℚ
deriving DecidableEq, Repr

def emptyQT : QuestionTypes := ⟨none, none, none, none⟩

/-- `sum(qt.values())` over the present keys. -/
def QuestionTypes.valuesSum (q : QuestionTypes) : ℚ :=
  (q.open_ended.getD 0) + (q.closed.getD 0) + (q.scaffolding.getD 0) + (q.rhetorical.getD 0)

/-- `feedback_quality` nested dict. -/
structure FeedbackQuality where
  specific_praise : Option ℚ
  corrective : Option ℚ
  generic : Option ℚ
deriving DecidableEq, Repr

def emptyFQ : FeedbackQuality := ⟨none, none, none⟩

/-- `bloom_levels` nested dict. -/
structure BloomLevels where
  remember : Option ℚ
  understand : Option ℚ
  apply : Option ℚ
  analyze : Option ℚ
  evaluate : Option ℚ
  create : Option ℚ
deriving DecidableEq, Repr

def emptyBloom : BloomLevels := ⟨none, none, none, none, none, none⟩

/-- `discourse_result` dict. -/
structure DiscourseResult where
  question_types : Option QuestionTypes
  feedback_quality : Option FeedbackQuality
  bloom_levels : Option BloomLevels
  interaction_score : Option ℚ
  hasError : Bool
deriving DecidableEq, Repr

def emptyDiscourse : DiscourseResult := ⟨none, none, none, none, false⟩

/-! ### `_safe` — guarded reads from possibly-failed analyzer dicts -/

/-- `_safe(d, key, default)` for a numeric key of `vision_summary`. -/
def VisionSummary.safe (v : VisionSummary) (f : VisionSummary → Option ℚ) (d : ℚ) : ℚ :=
  if v.isEmpty || v.hasError then d else (f v).getD d

/-- `_safe(d, key, default)` for a numeric key of `content_summary`. -/
def ContentSummary.safe (c : ContentSummary) (f : ContentSummary → Option ℚ) (d : ℚ) : ℚ :=
  if c.isEmpty || c.hasError then d else (f c).getD d

/-- `_safe(d, key, default)` for a numeric key of `vibe_summary`. -/
def VibeSummary.safe (v : VibeSummary) (f : VibeSummary → Option ℚ) (d : ℚ) : ℚ :=
  if v.isEmpty || v.hasError then d else (f v).getD d

/-- `_safe(vibe, 'energy_distribution', {})`. -/
def VibeSummary.safeED (v : VibeSummary) : EnergyDist :=
  if v.isEmpty || v.hasError then emptyED else v.energy_distribution.getD emptyED

/-! ### Availability booleans (`evaluate`, lines 329–333) -/

/-- `vis_ok = bool(vision_summary and 'error' not in vision_summary)`. -/
def visOk (v : VisionSummary) : Bool := !v.isEmpty && !v.hasError

/-- `con_ok = bool(content_summary and 'error' not in content_summary)`. -/
def conOk (c : ContentSummary) : Bool := !c.isEmpty && !c.hasError

/-- `vib_ok = bool(vibe_summary and len(vibe_summary) > 0)`. -/
def vibOk (v : VibeSummary) : Bool := !v.isEmpty

/-- `stt_ok = bool(stt and 'word_count' in stt)`. -/
def sttOk (s : SttResult) : Bool := s.word_count.isSome

/-- `disc_ok = bool(discourse and 'question_types' in discourse)`. -/
def discOk (d : DiscourseResult) : Bool := d.question_types.isSome

/-! ### The agent: configuration state and construction -/

/-- The result of `_load_config` (the five configuration tables). -/
structure LoadedConfig where
  dimensions : List (String × ℚ × String)
  presets : List (String × List (String × Preset))
  grading : List (String × ℚ)
  binning : List (String × List (String × ℚ × ℚ))
  confidence_weights : List (String × ℚ)

/-- The repository ships no `rubric_config.yaml`, so `_load_config`
falls back to the `DEFAULT_*` tables. -/
def defaultConfig : LoadedConfig :=
  ⟨DEFAULT_DIMENSIONS, DEFAULT_PRESETS, DEFAULT_GRADING, DEFAULT_BINNING,
   DEFAULT_CONFIDENCE_WEIGHTS⟩

/-- The instance state a `PedagogyAgent.__init__` call establishes. -/
structure Agent where
  dimensions : List (String × ℚ × String)
  presets : List (String × List (String × Preset))
  grading : List (String × ℚ)
  binning : List (String × List (String × ℚ × ℚ))
  confidence_weights : List (String × ℚ)
  preset : String
  continuous_scoring : Bool
  steepness : ℚ
  current_preset : List (String × Preset)

namespace PedagogyAgent

/-- `PedagogyAgent.__init__(use_rag, preset, continuous_scoring)`:
loads the configuration, reads `GAIM_SIGMOID_STEEPNESS` (passed here as
`steepness`), and resolves `current_preset`. -/
def init (cfg : LoadedConfig) (preset : String) (continuous_scoring : Bool)
    (steepness : ℚ) : Agent :=
  { dimensions := cfg.dimensions
    presets := cfg.presets
    grading := cfg.grading
    binning := cfg.binning
    confidence_weights := cfg.confidence_weights
    preset := preset
    continuous_scoring := continuous_scoring
    steepness := steepness
    current_preset :=
      ((cfg.presets.lookup preset).orElse
        (fun _ => cfg.presets.lookup "default")).getD [] }

/-- `PedagogyAgent()` with all defaults in the shipped environment. -/
def defaultAgent : Agent := init defaultConfig "default" false 10.0

/-- `_bin_metric(metric_name, value)`. -/
def binMetric (a : Agent) (metric : String) (value : ℚ) : String :=
  match a.binning.lookup metric with
  | none => "UNKNOWN"
  | some bins => if bins.isEmpty then "UNKNOWN" else (pyBin value bins).getD "UNKNOWN"

/-- `_continuous_score(metric_name, value, label_scores)`. -/
def continuousScore (a : Agent) (mexp : ℚ → ℚ) (metric : String) (value : ℚ)
    (label_scores : List (String × ℚ)) : ℚ :=
  if !a.continuous_scoring then
    (label_scores.lookup (binMetric a metric value)).getD 0.0
  else
    match a.binning.lookup metric with
    | none => 0.0
    | some bins =>
      if bins.isEmpty then 0.0
      else sigmoidMap mexp value bins label_scores a.steepness

/-- The dict `_compute_confidence` returns. -/
structure Confidence where
  overall : ℚ
  vision_available : Bool
  content_available : Bool
  stt_available : Bool
  vibe_available : Bool
  discourse_available : Bool
  data_completeness : ℚ
deriving DecidableEq, Repr

/-- `_compute_confidence(vis_ok, con_ok, stt_ok, vib_ok, disc_ok)`. -/
def computeConfidence (a : Agent) (vis_ok con_ok stt_ok vib_ok disc_ok : Bool) :
    Confidence :=
  let cw := a.confidence_weights
  let available : ℚ :=
    (if vis_ok then (cw.lookup "vision").getD 0.2 else 0) +
    (if stt_ok then (cw.lookup "stt").getD 0.3 else 0) +
    (if vib_ok then (cw.lookup "vibe").getD 0.15 else 0) +
    (if con_ok then (cw.lookup "content").getD 0.15 else 0) +
    (if disc_ok then (cw.lookup "discourse").getD 0.2 else 0)
  let total_possible : ℚ := (cw.map (fun p => p.2)).sum
  let overall : ℚ := if total_possible > 0 then available / total_possible else 0.0
  { overall := pyround overall 3
    vision_available := vis_ok
    content_available := con_ok
    stt_available := stt_ok
    vibe_available := vib_ok
    discourse_available := disc_ok
    data_completeness := pyround available 3 }

/-- `_get_base(dim_name)`. -/
def getBase (a : Agent) (dim_name : String) : ℚ :=
  match a.current_preset.lookup dim_name with
  | some p => p.base
  | none => 10.0

/-- `_get_adjust_range(dim_name)`. -/
def getAdjustRange (a : Agent) (dim_name : String) : ℚ :=
  match a.current_preset.lookup dim_name with
  | some p => p.adjust_range
  | none => 5.0

/-- The weight `w` that `_make_score` resolves for `name`. -/
def weightOf (a : Agent) (name : String) : ℚ :=
  match a.dimensions.lookup name with
  | some d => d.1
  | none =>
    match DEFAULT_DIMENSIONS.lookup name with
    | some d => d.1
    | none => 10

/-- The theory text `_make_score` resolves for `name`. -/
def theoryOf (a : Agent) (name : String) : String :=
  match a.dimensions.lookup name with
  | some d => d.2
  | none =>
    match DEFAULT_DIMENSIONS.lookup name with
    | some d => d.2
    | none => ""

/-- The preset clamp of `_make_score`:
`clamped = max(effective_min, min(effective_max, base))` with
`effective_max = min(preset_base + adj_range, w*0.95)` and
`effective_min = max(preset_base - adj_range, 0)`. -/
def clampToPreset (a : Agent) (name : String) (base : ℚ) : ℚ :=
  let w := weightOf a name
  let preset_base := getBase a name
  let adj_range := getAdjustRange a name
  let effective_max := min (preset_base + adj_range) (w * 0.95)
  let effective_min := max (preset_base - adj_range) 0
  max effective_min (min effective_max base)

/-- A `DimensionScore` record. -/
structure DimensionScore where
  name : String
  score : ℚ
  max_score : ℚ
  percentage : ℚ
  grade : String
  feedback : String
  theory_reference : String
  confidence : ℚ
  improvement_tips : List String
deriving DecidableEq, Repr

instance : Inhabited DimensionScore := ⟨⟨"", 0, 0, 0, "", "", "", 0, []⟩⟩

/-- `_make_score(name, base, feedback_fn, tips, confidence)`. -/
def makeScore (a : Agent) (name : String) (base : ℚ) (feedback_fn : ℚ → String)
    (tips : List String) (confidence : ℚ) : DimensionScore :=
  let w := weightOf a name
  let clamped := clampToPreset a name base
  let score := max 0 (min w (pyround clamped 1))
  let pct := score / w * 100
  let g := if pct ≥ 85 then "우수"
           else if pct ≥ 70 then "양호"
           else if pct ≥ 55 then "보통" else "노력 필요"
  { name := name
    score := score
    max_score := w
    percentage := pct
    grade := g
    feedback := feedback_fn pct
    theory_reference := theoryOf a name
    confidence := confidence
    improvement_tips := tips }

/-- `_grade(total)`: thresholds sorted descending, first match wins. -/
def gradeOf (a : Agent) (total : ℚ) : String :=
  match (sortDesc a.grading).find? (fun g => decide (total ≥ g.2)) with
  | some g => g.1
  | none => "D"

/-! ### The seven dimension scorers -/

/-- `_eval_expertise` (수업 전문성, 20점). -/
def evalExpertise (a : Agent) (content : ContentSummary) (stt : SttResult)
    (vis_ok con_ok stt_ok : Bool) (discourse : DiscourseResult) (disc_ok : Bool) :
    DimensionScore :=
  let base := getBase a "수업 전문성"
  let conf : ℚ := 0.5
  let (base, conf) :=
    if stt_ok then
      let wc := stt.word_count.getD 0
      let dur := stt.duration_seconds.getD 600
      let wpm := if dur > 0 then wc / dur * 60 else 0
      let wpm_bin := binMetric a "speaking_wpm" wpm
      let base := base +
        (if wpm_bin = "GOOD" then 3.0
         else if wpm_bin = "MODERATE" then 1.5
         else if wpm_bin = "SLOW" then 0.0
         else if wpm_bin = "FAST" then -1.5
         else if wpm_bin = "VERY_FAST" then -3.0
         else if wpm_bin = "VERY_SLOW" then -3.0 else 0)
      let base := base +
        (if wc > 1200 then 3.0
         else if wc > 800 then 2.0
         else if wc > 500 then 0.5
         else if wc > 300 then -2.5 else -5.0)
      (base, conf + 0.25)
    else (base, conf)
  let (base, conf) :=
    if con_ok then
      let speaker_vis := content.safe (fun c => c.speaker_visible_ratio) 0
      let base := base +
        (if speaker_vis > 0.8 then 1.0 else if speaker_vis < 0.3 then -1.0 else 0)
      (base, conf + 0.1)
    else (base, conf)
  let (base, conf) :=
    if disc_ok then
      let bloom := discourse.bloom_levels.getD emptyBloom
      let higher_order := bloom.analyze.getD 0 + bloom.evaluate.getD 0 + bloom.create.getD 0
      let base := base +
        (if higher_order > 0.3 then 3.5
         else if higher_order > 0.15 then 2.0
         else if higher_order > 0.05 then 0.5 else -2.5)
      (base, conf + 0.15)
    else (base, conf)
  let tips :=
    (if stt_ok && decide (stt.word_count.getD 0 < 500) then
      ["충분한 설명을 통해 학습 내용을 풍부하게 전달하세요."] else []) ++
    (if disc_ok && decide ((discourse.bloom_levels.getD emptyBloom).analyze.getD 0 < 0.1) then
      ["분석·평가·창작 수준의 사고를 유도하는 질문을 늘리세요."] else [])
  makeScore a "수업 전문성" base
    (fun p => if p ≥ 85 then "학습 목표가 명확하고 내용 구조화가 매우 체계적입니다."
      else if p ≥ 70 then "학습 목표와 내용 구성이 전반적으로 양호합니다."
      else if p ≥ 55 then "내용 전달이 보통 수준입니다. 구조화가 필요합니다."
      else "학습 목표를 명확히 하고 내용을 체계적으로 구성하세요.")
    tips (min 1.0 conf)

/-- `_eval_methods` (교수학습 방법, 20점). -/
def evalMethods (a : Agent) (content : ContentSummary) (vision : VisionSummary)
    (stt : SttResult) (vis_ok con_ok stt_ok : Bool) (discourse : DiscourseResult)
    (disc_ok : Bool) : DimensionScore :=
  let base := getBase a "교수학습 방법"
  let conf : ℚ := 0.5
  let (base, conf) :=
    if con_ok then
      let slide_r := content.safe (fun c => c.slide_detected_ratio) 0
      let base := base +
        (if slide_r > 0.6 then 3.0 else if slide_r > 0.3 then 1.5
         else if slide_r < 0.1 then -2.0 else 0)
      let contrast := content.safe (fun c => c.avg_color_contrast) 0
      let base := base + (if contrast > 60 then 1.5 else if contrast < 20 then -1.0 else 0)
      (base, conf + 0.15)
    else (base, conf)
  let (base, conf) :=
    if vis_ok then
      let g_ratio := vision.safe (fun v => v.gesture_active_ratio) 0
      let g_bin := binMetric a "gesture_active_ratio" g_ratio
      let base := base +
        (if g_bin = "ACTIVE" then 3.5 else if g_bin = "MODERATE" then 1.5
         else if g_bin = "LOW" then -0.5 else if g_bin = "INACTIVE" then -2.0 else 0)
      let motion := vision.safe (fun v => v.avg_motion_score) 0
      let base := base + (if motion > 25 then 1.5 else if motion < 5 then -1.0 else 0)
      (base, conf + 0.15)
    else (base, conf)
  let (base, conf) :=
    if stt_ok then
      let wc := stt.word_count.getD 0
      let dur := stt.duration_seconds.getD 600
      let wpm := if dur > 0 then wc / dur * 60 else 0
      let wpm_bin := binMetric a "speaking_wpm" wpm
      let base := base +
        (if wpm_bin = "GOOD" ∨ wpm_bin = "MODERATE" then 2.0
         else if wpm_bin = "VERY_SLOW" then -2.5 else 0)
      (base, conf + 0.1)
    else (base, conf)
  let (base, conf) :=
    if disc_ok then
      let qt := discourse.question_types.getD emptyQT
      let s := qt.valuesSum
      let total_q := if s = 0 then 1 else s
      let open_ratio := qt.open_ended.getD 0 / total_q
      let scaffolding := qt.scaffolding.getD 0
      let base := base +
        (if open_ratio > 0.4 then 2.5 else if open_ratio > 0.2 then 1.0
         else if open_ratio < 0.05 then -1.5 else 0)
      let base := base + (if scaffolding ≥ 3 then 2.0 else if scaffolding ≥ 1 then 0.5 else 0)
      (base, conf + 0.1)
    else (base, conf)
  let tips :=
    if disc_ok then
      let qt := discourse.question_types.getD emptyQT
      (if qt.open_ended.getD 0 < 3 then
        ["\x27왜?\x27, \x27어떻게?\x27 등 개방형 질문을 더 활용하세요."] else []) ++
      (if qt.scaffolding.getD 0 < 1 then
        ["스캐폴딩 질문으로 학생의 사고를 단계적으로 유도하세요."] else [])
    else []
  makeScore a "교수학습 방법" base
    (fun p => if p ≥ 85 then "다양한 교수학습 방법을 매우 효과적으로 활용합니다."
      else if p ≥ 70 then "교수법이 양호하며 시각자료 활용도 적절합니다."
      else if p ≥ 55 then "교수법이 보통 수준입니다. 다양한 전략을 시도하세요."
      else "다양한 교수학습 전략과 매체 활용이 필요합니다.")
    tips (min 1.0 conf)

/-- `_eval_language` (판서 및 언어, 15점). -/
def evalLanguage (a : Agent) (content : ContentSummary) (stt : SttResult)
    (vibe : VibeSummary) (stt_ok vib_ok : Bool) : DimensionScore :=
  let base := getBase a "판서 및 언어"
  let conf : ℚ := 0.5
  let (base, conf) :=
    if stt_ok then
      let fr := stt.filler_ratio.getD 0.03
      let fr_bin := binMetric a "filler_ratio" fr
      let base := base +
        (if fr_bin = "CLEAN" then 4.0 else if fr_bin = "GOOD" then 2.0
         else if fr_bin = "MODERATE" then 0.5 else if fr_bin = "HIGH" then -2.0
         else if fr_bin = "EXCESSIVE" then -4.0 else 0)
      let pat := stt.speaking_pattern.getD ""
      let base := base +
        (if strIn "빠름" pat || strIn "Fast" pat then -1.5
         else if strIn "느림" pat || strIn "Slow" pat then -0.5 else 0)
      (base, conf + 0.25)
    else (base, conf)
  let (base, conf) :=
    if vib_ok then
      let mono := vibe.safe (fun v => v.monotone_ratio) 0.5
      let mono_bin := binMetric a "monotone_ratio" mono
      let base := base +
        (if mono_bin = "EXPRESSIVE" then 3.0 else if mono_bin = "VARIED" then 1.5
         else if mono_bin = "MODERATE" then 0.0 else if mono_bin = "MONOTONE" then -2.0
         else if mono_bin = "FLAT" then -3.5 else 0)
      (base, conf + 0.25)
    else (base, conf)
  let tips :=
    (if stt_ok && decide (stt.filler_ratio.getD 0 > 0.04) then
      ["습관어를 줄이세요 (현재: " ++ formatPercent1 (stt.filler_ratio.getD 0) ++ ")."]
     else []) ++
    (if !vib_ok then ["목소리 톤에 변화를 주어 핵심 내용을 강조하세요."] else [])
  makeScore a "판서 및 언어" base
    (fun p => if p ≥ 85 then "언어 표현이 명확하고 발화가 매우 깨끗합니다."
      else if p ≥ 70 then "언어 사용이 양호하나 미세한 개선 여지가 있습니다."
      else if p ≥ 55 then "습관어나 단조로운 어조 개선이 필요합니다."
      else "발화 습관을 개선하고 핵심 용어를 정확히 사용하세요.")
    tips (min 1.0 conf)

/-- `_eval_attitude` (수업 태도, 15점). -/
def evalAttitude (a : Agent) (vision : VisionSummary) (vibe : VibeSummary)
    (vis_ok vib_ok stt_ok : Bool) (stt : SttResult) (discourse : DiscourseResult)
    (disc_ok : Bool) : DimensionScore :=
  let base := getBase a "수업 태도"
  let conf : ℚ := 0.5
  let (base, conf) :=
    if vis_ok then
      let ec := vision.safe (fun v => v.eye_contact_ratio) 0
      let ec_bin := binMetric a "eye_contact_ratio" ec
      let base := base +
        (if ec_bin = "EXCELLENT" then 4.0 else if ec_bin = "GOOD" then 3.0
         else if ec_bin = "MODERATE" then 1.0 else if ec_bin = "LOW" then -1.0
         else if ec_bin = "POOR" then -3.0 else 0)
      let expr := vision.safe (fun v => v.avg_expression_score) 50
      let base := base +
        (if expr > 70 then 2.5 else if expr > 55 then 0.5 else if expr < 30 then -2.0 else 0)
      (base, conf + 0.2)
    else (base, conf)
  let (base, conf) :=
    if vib_ok then
      let ed := vibe.safeED
      let base :=
        if ed.nonEmpty then
          let high_e := ed.high.getD 0
          let low_e := ed.low.getD 0
          let base := base + (if high_e > 0.4 then 2.5 else if high_e > 0.25 then 1.0 else 0)
          base + (if low_e > 0.5 then -2.0 else 0)
        else base
      (base, conf + 0.1)
    else (base, conf)
  let (base, conf) :=
    if stt_ok then
      let wc := stt.word_count.getD 0
      let dur := stt.duration_seconds.getD 600
      let wpm := if dur > 0 then wc / dur * 60 else 0
      let wpm_bin := binMetric a "speaking_wpm" wpm
      let base := base +
        (if wpm_bin = "GOOD" ∨ wpm_bin = "MODERATE" then 2.0
         else if wpm_bin = "VERY_SLOW" then -2.0 else 0)
      (base, conf + 0.1)
    else (base, conf)
  let (base, conf) :=
    if disc_ok then
      let fb := discourse.feedback_quality.getD emptyFQ
      let specific_praise := fb.specific_praise.getD 0
      let corrective := fb.corrective.getD 0
      let base := base +
        (if specific_praise ≥ 5 then 2.5 else if specific_praise ≥ 2 then 1.0 else 0)
      let base := base + (if corrective ≥ 3 then 1.5 else 0)
      (base, conf + 0.1)
    else (base, conf)
  let tips :=
    (if vis_ok && decide (vision.safe (fun v => v.eye_contact_ratio) 0 < 0.3) then
      ["학생들과 시선을 고르게 맞추며 소통하세요."] else []) ++
    (if disc_ok && decide ((discourse.feedback_quality.getD emptyFQ).specific_praise.getD 0 < 2) then
      ["\x27잘했어요\x27 대신 \x27○○을 정확히 파악했네!\x27와 같은 구체적 칭찬을 하세요."]
     else [])
  makeScore a "수업 태도" base
    (fun p => if p ≥ 85 then "열정적인 태도와 학생과의 라포 형성이 매우 우수합니다."
      else if p ≥ 70 then "전반적으로 양호한 태도이나 소통 강화가 필요합니다."
      else if p ≥ 55 then "태도 전반에 개선이 필요합니다."
      else "시선 접촉과 구체적 피드백을 통해 열정을 전달하세요.")
    tips (min 1.0 conf)

/-- `_eval_participation` (학생 참여, 15점). -/
def evalParticipation (a : Agent) (stt : SttResult) (vibe : VibeSummary)
    (stt_ok vib_ok : Bool) (discourse : DiscourseResult) (disc_ok : Bool) :
    DimensionScore :=
  let base := getBase a "학생 참여"
  let conf : ℚ := 0.5
  let (base, conf) :=
    if stt_ok then
      let student_turns := stt.student_turns.getD 0
      let interaction_count := stt.interaction_count.getD 0
      let teacher_ratio := stt.teacher_ratio.getD 0.75
      let base := base +
        (if student_turns > 20 then 2.5 else if student_turns > 10 then 1.5
         else if student_turns > 5 then 0.5 else if student_turns > 0 then 0.0 else -4.0)
      let base := base +
        (if interaction_count > 20 then 1.5 else if interaction_count > 10 then 0.5
         else if interaction_count < 3 then -1.5 else 0)
      let tr_bin := binMetric a "teacher_ratio" teacher_ratio
      let base := base +
        (if tr_bin = "STUDENT_LED" then 2.0 else if tr_bin = "BALANCED" then 1.5
         else if tr_bin = "TEACHER_MODERATE" then 0.5
         else if tr_bin = "TEACHER_DOMINANT" then -1.5
         else if tr_bin = "LECTURE_ONLY" then -4.0 else 0)
      let question_count := stt.question_count.getD 0
      let base := base +
        (if question_count > 10 then 1.0 else if question_count = 0 then -1.0 else 0)
      (base, conf + 0.25)
    else (base, conf)
  let (base, conf) :=
    if vib_ok then
      let sr := vibe.safe (fun v => v.avg_silence_ratio) 0.3
      let base := base +
        (if 0.15 ≤ sr ∧ sr ≤ 0.30 then 0.5 else if sr > 0.45 then -1.0 else 0)
      (base, conf + 0.1)
    else (base, conf)
  let (base, conf) :=
    if disc_ok then
      let interaction_score := discourse.interaction_score.getD 50
      let base := base +
        (if interaction_score > 80 then 1.5 else if interaction_score > 65 then 0.5
         else if interaction_score < 30 then -1.5 else 0)
      (base, conf + 0.15)
    else (base, conf)
  let tips :=
    (if stt_ok && decide (stt.student_turns.getD 0 < 3) then
      ["개방형 질문으로 학생 발언 기회를 늘리세요."] else []) ++
    (if stt_ok && decide (stt.teacher_ratio.getD 0.75 > 0.85) then
      ["교사 발화 비율이 높습니다. 학생에게 더 많은 발언 기회를 주세요."] else [])
  makeScore a "학생 참여" base
    (fun p => if p ≥ 85 then "학생 참여를 효과적으로 이끌어내며 상호작용이 활발합니다."
      else if p ≥ 70 then "참여 유도가 양호하나 상호작용을 더 늘리세요."
      else if p ≥ 55 then "학생 참여 유도가 부족합니다."
      else "발문과 피드백 전략을 적극적으로 활용하세요.")
    tips (min 1.0 conf)

/-- `_eval_time` (시간 배분, 10점). -/
def evalTime (a : Agent) (vibe : VibeSummary) (stt : SttResult)
    (vib_ok stt_ok : Bool) : DimensionScore :=
  let base := getBase a "시간 배분"
  let conf : ℚ := 0.5
  let (base, conf) :=
    if vib_ok then
      let ed := vibe.safeED
      let base :=
        if ed.nonEmpty then
          let l0 := ed.low.getD 0
          let l1 := ed.normal.getD 0
          let l2 := ed.high.getD 0
          if l0 + l1 + l2 > 0 then
            let spread := max l0 (max l1 l2) - min l0 (min l1 l2)
            base + (if spread < 0.25 then 3.5 else if spread < 0.4 then 1.5
                    else if spread > 0.65 then -2.5 else 0)
          else base
        else base
      let mono := vibe.safe (fun v => v.monotone_ratio) 0.5
      let mono_bin := binMetric a "monotone_ratio" mono
      let base := base +
        (if mono_bin = "EXPRESSIVE" ∨ mono_bin = "VARIED" then 1.5
         else if mono_bin = "MONOTONE" ∨ mono_bin = "FLAT" then -1.5 else 0)
      (base, conf + 0.25)
    else (base, conf)
  let (base, conf) :=
    if stt_ok then
      let dur := stt.duration_seconds.getD 600
      let base := base +
        (if 500 ≤ dur ∧ dur ≤ 900 then 1.0 else if dur > 1200 then -2.0
         else if dur < 300 then -2.0 else 0)
      (base, conf + 0.25)
    else (base, conf)
  let tips := if base < 7 then ["도입(10%)-전개(70%)-정리(20%) 비율로 시간을 배분하세요."] else []
  makeScore a "시간 배분" base
    (fun p => if p ≥ 85 then "시간 배분이 매우 적절하며 수업 흐름이 자연스럽습니다."
      else if p ≥ 70 then "시간 배분이 양호하나 정리 단계를 확보하세요."
      else if p ≥ 55 then "시간 배분에 개선이 필요합니다."
      else "시간 배분을 사전에 계획하고 각 단계에 충실하세요.")
    tips (min 1.0 conf)

/-- `_eval_creativity` (창의성, 5점). -/
def evalCreativity (a : Agent) (content : ContentSummary) (vision : VisionSummary)
    (stt : SttResult) (vibe : VibeSummary) (vis_ok con_ok stt_ok vib_ok : Bool)
    (discourse : DiscourseResult) (disc_ok : Bool) : DimensionScore :=
  let base := getBase a "창의성"
  let conf : ℚ := 0.5
  let (base, conf) :=
    if con_ok then
      let contrast := content.safe (fun c => c.avg_color_contrast) 0
      let complexity := content.safe (fun c => c.avg_complexity) 0
      let base := base + (if contrast > 60 then 0.5 else if contrast < 15 then -0.4 else 0)
      let base := base + (if complexity > 10 then 0.4 else if complexity < 3 then -0.4 else 0)
      (base, conf + 0.1)
    else (base, conf)
  let (base, conf) :=
    if vis_ok then
      let motion := vision.safe (fun v => v.avg_motion_score) 0
      let base := base +
        (if motion > 30 then 0.8 else if motion > 15 then 0.4 else if motion < 3 then -0.6 else 0)
      let openness := vision.safe (fun v => v.avg_body_openness) 0.5
      let base := base + (if openness > 0.75 then 0.6 else if openness < 0.3 then -0.4 else 0)
      let g_ratio := vision.safe (fun v => v.gesture_active_ratio) 0
      let g_bin := binMetric a "gesture_active_ratio" g_ratio
      let base := base +
        (if g_bin = "ACTIVE" then 0.7 else if g_bin = "MODERATE" then 0.3
         else if g_bin = "INACTIVE" then -0.6 else 0)
      (base, conf + 0.15)
    else (base, conf)
  let (base, conf) :=
    if stt_ok then
      let wc := stt.word_count.getD 0
      let sc := stt.segment_count.getD 1
      let base := base +
        (if sc > 100 ∧ wc > 800 then 0.5 else if sc > 60 ∧ wc > 500 then 0.2
         else if wc < 300 then -0.5 else 0)
      (base, conf + 0.1)
    else (base, conf)
  let (base, conf) :=
    if disc_ok then
      let bloom := discourse.bloom_levels.getD emptyBloom
      let create_level := bloom.create.getD 0
      let analyze_level := bloom.analyze.getD 0
      let base := base +
        (if create_level > 0.1 then 0.8 else if create_level > 0.03 then 0.4 else 0)
      let base := base + (if analyze_level > 0.15 then 0.4 else 0)
      let scaffolding := (discourse.question_types.getD emptyQT).scaffolding.getD 0
      let base := base + (if scaffolding ≥ 3 then 0.5 else if scaffolding ≥ 1 then 0.2 else 0)
      let remember := bloom.remember.getD 0
      let base := base + (if remember > 0.7 then -0.7 else 0)
      (base, conf + 0.15)
    else (base, conf)
  let tips :=
    (if base < 3.5 then ["ICT 도구를 활용한 창의적 수업 설계를 시도하세요."] else []) ++
    (if vis_ok && decide (vision.safe (fun v => v.gesture_active_ratio) 0 < 0.2) then
      ["몸짓과 제스처를 적극 활용하여 수업을 역동적으로 만드세요."] else [])
  makeScore a "창의성" base
    (fun p => if p ≥ 85 then "창의적인 수업 설계와 전달이 돋보입니다."
      else if p ≥ 70 then "창의성이 양호한 수준입니다."
      else if p ≥ 55 then "창의적 요소를 더 추가하세요."
      else "독창적인 활동과 시각적 매체를 적극 활용하세요.")
    tips (min 1.0 conf)

/-! ### `evaluate` -/

/-- Python `max(dims, key=lambda d: d.percentage).name` (first maximum wins). -/
def maxByPct (dims : List DimensionScore) : String :=
  match dims with
  | [] => ""
  | d :: ds => (ds.foldl (fun acc x => if x.percentage > acc.percentage then x else acc) d).name

/-- Python `min(dims, key=lambda d: d.percentage).name` (first minimum wins). -/
def minByPct (dims : List DimensionScore) : String :=
  match dims with
  | [] => ""
  | d :: ds => (ds.foldl (fun acc x => if x.percentage < acc.percentage then x else acc) d).name

/-- The `profile_summary` sub-dict of the result. -/
structure ProfileSummary where
  strengths : List String
  improvements : List String
  top_dimension : String
  weakest_dimension : String
deriving DecidableEq, Repr

/-- The dict `evaluate` returns. -/
structure RubricResult where
  total_score : ℚ
  grade : String
  is_supplementary : Bool
  dimensions : List DimensionScore
  dimension_scores : List (String × ℚ)
  theory_references : List String
  preset_used : String
  continuous_scoring : Bool
  confidence : Confidence
  profile_summary : ProfileSummary
  version : String
deriving DecidableEq, Repr

/-- `PedagogyAgent.evaluate(vision_summary, content_summary, vibe_summary,
stt_result, discourse_result)`.  A `None` for `stt_result` or
`discourse_result` is the corresponding empty record. -/
def evaluate (a : Agent) (vision : VisionSummary) (content : ContentSummary)
    (vibe : VibeSummary) (stt : SttResult) (discourse : DiscourseResult) :
    RubricResult :=
  let vis_ok := visOk vision
  let con_ok := conOk content
  let vib_ok := vibOk vibe
  let stt_ok := sttOk stt
  let disc_ok := discOk discourse
  let confidence := computeConfidence a vis_ok con_ok stt_ok vib_ok disc_ok
  let dims : List DimensionScore :=
    [evalExpertise a content stt vis_ok con_ok stt_ok discourse disc_ok,
     evalMethods a content vision stt vis_ok con_ok stt_ok discourse disc_ok,
     evalLanguage a content stt vibe stt_ok vib_ok,
     evalAttitude a vision vibe vis_ok vib_ok stt_ok stt discourse disc_ok,
     evalParticipation a stt vibe stt_ok vib_ok discourse disc_ok,
     evalTime a vibe stt vib_ok stt_ok,
     evalCreativity a content vision stt vibe vis_ok con_ok stt_ok vib_ok discourse disc_ok]
  let total := (dims.map (fun d => d.score)).sum
  let strengths := (dims.filter (fun d => decide (d.percentage ≥ 80))).map (fun d => d.name)
  let improvements := (dims.filter (fun d => decide (d.percentage < 60))).map (fun d => d.name)
  { total_score := pyround total 1
    grade := gradeOf a total
    is_supplementary := true
    dimensions := dims
    dimension_scores := dims.map (fun d => (d.name, d.score))
    theory_references := dims.map (fun d => d.theory_reference)
    preset_used := a.preset
    continuous_scoring := a.continuous_scoring
    confidence := confidence
    profile_summary :=
      { strengths := strengths
        improvements := improvements
        top_dimension := if dims.isEmpty then "" else maxByPct dims
        weakest_dimension := if dims.isEmpty then "" else minByPct dims }
    version := "8.0" }

end PedagogyAgent

/-! ### GrowthAnalyzer `_linear_trend` (`src/core/growth_analyzer.py`) -/

/-- The dict `_linear_trend` returns. -/
structure TrendResult where
  slope : ℚ
  direction : String
  r_squared : ℚ
deriving DecidableEq, Repr

/-- The (unrounded) regression slope `_linear_trend` computes and compares
against the ±0.5 thresholds; 0 with fewer than 2 records. -/
def rawSlope (values : List ℚ) : ℚ :=
  let n := values.length
  if n < 2 then 0
  else
    let x_mean : ℚ := ((n : ℚ) - 1) / 2
    let y_mean : ℚ := values.sum / (n : ℚ)
    let ss_xy : ℚ := (values.enum.map (fun p => ((p.1 : ℚ) - x_mean) * (p.2 - y_mean))).sum
    let ss_xx : ℚ := ((List.range n).map (fun i => ((i : ℚ) - x_mean) ^ 2)).sum
    if ss_xx ≠ 0 then ss_xy / ss_xx else 0

/-- `_linear_trend(values)`. -/
def linearTrend (values : List ℚ) : TrendResult :=
  let n := values.length
  if n < 2 then ⟨0.0, "stable", 0.0⟩
  else
    let x_mean : ℚ := ((n : ℚ) - 1) / 2
    let y_mean : ℚ := values.sum / (n : ℚ)
    let ss_xy : ℚ := (values.enum.map (fun p => ((p.1 : ℚ) - x_mean) * (p.2 - y_mean))).sum
    let ss_xx : ℚ := ((List.range n).map (fun i => ((i : ℚ) - x_mean) ^ 2)).sum
    let ss_yy : ℚ := (values.map (fun v => (v - y_mean) ^ 2)).sum
    let slope : ℚ := if ss_xx ≠ 0 then ss_xy / ss_xx else 0
    let r_squared : ℚ := if ss_xx ≠ 0 ∧ ss_yy ≠ 0 then ss_xy ^ 2 / (ss_xx * ss_yy) else 0
    let direction := if slope > 0.5 then "improving"
                     else if slope < -0.5 then "declining" else "stable"
    ⟨pyround slope 3, direction, pyround r_squared 3⟩

/-! ### Well-formedness of bin tables (§3 data-model invariant) -/

/-- Executable check that a bin table is contiguous: each bin is
non-degenerate (`low < high`) and each bin's `high` is the next bin's
`low` (the §3 data-model invariant all shipped tables satisfy). -/
def contiguousChk : List (String × ℚ × ℚ) → Bool
  | [] => true
  | [b] => decide (b.2.1 < b.2.2)
  | x :: y :: l => decide (x.2.1 < x.2.2) && decide (x.2.2 = y.2.1) && contiguousChk (y :: l)

/-- A bin table is contiguous (propositional form of `contiguousChk`). -/
def Contiguous (l : List (String × ℚ × ℚ)) : Prop :=
  contiguousChk l = true

instance (l : List (String × ℚ × ℚ)) : Decidable (Contiguous l) :=
  inferInstanceAs (Decidable (contiguousChk l = true))

/-- A vibe dict holding only an `"error"` key. -/
def vibeErr : VibeSummary := ⟨none, none, none, true⟩

/-- An adversarial STT dict: `filler_ratio = 5.0` and `word_count = -1`. -/
def advStt : SttResult :=
  ⟨some (-1), some 600, none, some 5.0, none, none, none, none, none, none, false⟩

/-- A vision dict holding only an `"error"` key. -/
def visionErr : VisionSummary := ⟨none, none, none, none, none, none, true⟩

/-- A content dict holding only an `"error"` key. -/
def contentErr : ContentSummary := ⟨none, none, none, none, true⟩

/-- An STT dict with an `"error"` key but also a `word_count` key. -/
def sttErrWc : SttResult :=
  ⟨some 800, none, none, none, none, none, none, none, none, none, true⟩

/-- A discourse dict with an `"error"` key but also a `question_types` key. -/
def discErrQt : DiscourseResult := ⟨some emptyQT, none, none, none, true⟩

/-- The 판서 및 언어 dimension as scored inside
`evaluate({}, {}, {}, advStt, {})` — the adversarial-input witness. -/
def dimAdv : PedagogyAgent.DimensionScore :=
  PedagogyAgent.evalLanguage PedagogyAgent.defaultAgent emptyContent advStt emptyVibe
    (sttOk advStt) (vibOk emptyVibe)

/-! ## Theorems -/

/-! ### Shared helper lemmas -/

/-- In a contiguous table the head bin is non-degenerate. -/
theorem Contiguous.head_lt {x : String × ℚ × ℚ} {l : List (String × ℚ × ℚ)}
    (h : Contiguous (x :: l)) : x.2.1 < x.2.2 := by
  cases l with
  | nil => exact of_decide_eq_true h
  | cons y l =>
    have h' := h
    unfold Contiguous contiguousChk at h'
    simp only [Bool.and_eq_true, decide_eq_true_eq] at h'
    exact h'.1.1

/-- In a contiguous table the head's `high` equals the second bin's `low`. -/
theorem Contiguous.head_link {x y : String × ℚ × ℚ} {l : List (String × ℚ × ℚ)}
    (h : Contiguous (x :: y :: l)) : x.2.2 = y.2.1 := by
  have h' := h
  unfold Contiguous contiguousChk at h'
  simp only [Bool.and_eq_true, decide_eq_true_eq] at h'
  exact h'.1.2

/-- Dropping the head of a contiguous table keeps it contiguous. -/
theorem Contiguous.tail {x : String × ℚ × ℚ} {l : List (String × ℚ × ℚ)}
    (h : Contiguous (x :: l)) : Contiguous l := by
  cases l with
  | nil => rfl
  | cons y l =>
    have h' := h
    unfold Contiguous contiguousChk at h'
    simp only [Bool.and_eq_true, decide_eq_true_eq] at h'
    exact h'.2

/-- In a contiguous table, the head's `high` is at most any later bin's `low`. -/
theorem contiguous_head_le {x : String × ℚ × ℚ} {l : List (String × ℚ × ℚ)}
    (h : Contiguous (x :: l)) {y : String × ℚ × ℚ} (hy : y ∈ l) :
    x.2.2 ≤ y.2.1 := by
  induction l generalizing x with
  | nil => cases hy
  | cons z l ih =>
    have hxz : x.2.2 = z.2.1 := h.head_link
    rcases List.mem_cons.mp hy with rfl | hy'
    · exact le_of_eq hxz
    · have hz : Contiguous (z :: l) := h.tail
      have h1 : z.2.1 < z.2.2 := hz.head_lt
      calc x.2.2 = z.2.1 := hxz
        _ ≤ z.2.2 := le_of_lt h1
        _ ≤ y.2.1 := ih hz hy'

/-- The `find?` inside `pyBin` locates the upper bin at an interior boundary. -/
theorem find_boundary (bs₁ : List (String × ℚ × ℚ)) (b₁ b₂ : String × ℚ × ℚ)
    (bs₂ : List (String × ℚ × ℚ)) (v : ℚ)
    (hc : Contiguous (bs₁ ++ b₁ :: b₂ :: bs₂)) (hv : v = b₂.2.1) :
    (bs₁ ++ b₁ :: b₂ :: bs₂).find?
      (fun b => decide (b.2.1 ≤ v) && decide (v < b.2.2)) = some b₂ := by
  induction bs₁ with
  | nil =>
    have hc' : Contiguous (b₁ :: b₂ :: bs₂) := hc
    have h12 : b₁.2.2 = b₂.2.1 := hc'.head_link
    have h2 : b₂.2.1 < b₂.2.2 := hc'.tail.head_lt
    rw [List.nil_append]
    rw [List.find?_cons_of_neg, List.find?_cons_of_pos]
    · simp [hv, le_refl, h2]
    · simp [hv, ← h12]
  | cons b₀ bs₁ ih =>
    have hmem : b₂ ∈ bs₁ ++ b₁ :: b₂ :: bs₂ := by simp
    have hle : b₀.2.2 ≤ b₂.2.1 := by
      have hc' : Contiguous (b₀ :: (bs₁ ++ b₁ :: b₂ :: bs₂)) := hc
      exact contiguous_head_le hc' hmem
    have hneg : ¬ (b₀.2.1 ≤ v ∧ v < b₀.2.2) := by
      rintro ⟨_, hlt⟩
      rw [hv] at hlt
      exact absurd (lt_of_lt_of_le hlt hle) (lt_irrefl _)
    rw [List.cons_append, List.find?_cons_of_neg]
    · have hc' : Contiguous (b₀ :: (bs₁ ++ b₁ :: b₂ :: bs₂)) := hc
      exact ih hc'.tail
    · simpa using hneg

/-- Bounds for the final clamp of `_make_score`. -/
theorem max_min_bounds (w x : ℚ) (hw : 0 ≤ w) :
    0 ≤ max 0 (min w x) ∧ max 0 (min w x) ≤ w :=
  ⟨le_max_left 0 _, max_le hw (min_le_left w x)⟩

/-- `_make_score` always yields `0 ≤ score ≤ max_score` if the weight is
non-negative. -/
theorem makeScore_bounds (a : Agent) (name : String) (b : ℚ) (fn : ℚ → String)
    (tips : List String) (conf : ℚ) (hw : 0 ≤ PedagogyAgent.weightOf a name) :
    0 ≤ (PedagogyAgent.makeScore a name b fn tips conf).score ∧
    (PedagogyAgent.makeScore a name b fn tips conf).score ≤
      (PedagogyAgent.makeScore a name b fn tips conf).max_score :=
  max_min_bounds _ _ hw

/-- The preset clamp lands in the claimed effective range whenever the
range is non-degenerate. -/
theorem clampToPreset_range (a : Agent) (name : String) (b : ℚ)
    (h : max (PedagogyAgent.getBase a name - PedagogyAgent.getAdjustRange a name) 0 ≤
         min (PedagogyAgent.getBase a name + PedagogyAgent.getAdjustRange a name)
           (PedagogyAgent.weightOf a name * 0.95)) :
    PedagogyAgent.getBase a name - PedagogyAgent.getAdjustRange a name ≤
      PedagogyAgent.clampToPreset a name b ∧
    PedagogyAgent.clampToPreset a name b ≤
      min (PedagogyAgent.getBase a name + PedagogyAgent.getAdjustRange a name)
        (PedagogyAgent.weightOf a name * 0.95) := by
  unfold PedagogyAgent.clampToPreset
  exact ⟨le_trans (le_max_left _ _) (le_max_left _ _),
         max_le h (min_le_left _ _)⟩

/-! ### Claim theorems -/

/-- With `vis_ok = false`, `_eval_methods` never reads the vision dict. -/
theorem evalMethods_vision_irrel (a : Agent) (c : ContentSummary)
    (v v' : VisionSummary) (s : SttResult) (con stt : Bool)
    (d : DiscourseResult) (dok : Bool) :
    PedagogyAgent.evalMethods a c v s false con stt d dok =
      PedagogyAgent.evalMethods a c v' s false con stt d dok := by
  simp [PedagogyAgent.evalMethods]

/-- With `vis_ok = false`, `_eval_attitude` never reads the vision dict. -/
theorem evalAttitude_vision_irrel (a : Agent) (v v' : VisionSummary)
    (vb : VibeSummary) (vibok sttok : Bool) (s : SttResult)
    (d : DiscourseResult) (dok : Bool) :
    PedagogyAgent.evalAttitude a v vb false vibok sttok s d dok =
      PedagogyAgent.evalAttitude a v' vb false vibok sttok s d dok := by
  simp [PedagogyAgent.evalAttitude]

/-- With `vis_ok = false`, `_eval_creativity` never reads the vision dict. -/
theorem evalCreativity_vision_irrel (a : Agent) (c : ContentSummary)
    (v v' : VisionSummary) (s : SttResult) (vb : VibeSummary)
    (con stt vibok : Bool) (d : DiscourseResult) (dok : Bool) :
    PedagogyAgent.evalCreativity a c v s vb false con stt vibok d dok =
      PedagogyAgent.evalCreativity a c v' s vb false con stt vibok d dok := by
  simp [PedagogyAgent.evalCreativity]

/-- With `con_ok = false`, `_eval_expertise` never reads the content dict. -/
theorem evalExpertise_content_irrel (a : Agent) (c c' : ContentSummary)
    (s : SttResult) (vis stt : Bool) (d : DiscourseResult) (dok : Bool) :
    PedagogyAgent.evalExpertise a c s vis false stt d dok =
      PedagogyAgent.evalExpertise a c' s vis false stt d dok := by
  simp [PedagogyAgent.evalExpertise]

/-- With `con_ok = false`, `_eval_methods` never reads the content dict. -/
theorem evalMethods_content_irrel (a : Agent) (c c' : ContentSummary)
    (v : VisionSummary) (s : SttResult) (vis stt : Bool)
    (d : DiscourseResult) (dok : Bool) :
    PedagogyAgent.evalMethods a c v s vis false stt d dok =
      PedagogyAgent.evalMethods a c' v s vis false stt d dok := by
  simp [PedagogyAgent.evalMethods]

/-- `_eval_language` never reads the content dict at all. -/
theorem evalLanguage_content_irrel (a : Agent) (c c' : ContentSummary)
    (s : SttResult) (vb : VibeSummary) (stt vib : Bool) :
    PedagogyAgent.evalLanguage a c s vb stt vib =
      PedagogyAgent.evalLanguage a c' s vb stt vib := rfl

/-- With `con_ok = false`, `_eval_creativity` never reads the content dict. -/
theorem evalCreativity_content_irrel (a : Agent) (c c' : ContentSummary)
    (v : VisionSummary) (s : SttResult) (vb : VibeSummary)
    (vis stt vibok : Bool) (d : DiscourseResult) (dok : Bool) :
    PedagogyAgent.evalCreativity a c v s vb vis false stt vibok d dok =
      PedagogyAgent.evalCreativity a c' v s vb vis false stt vibok d dok := by
  simp [PedagogyAgent.evalCreativity]

/-- C1: `PedagogyAgent.evaluate` is deterministic: two evaluations of the
same input tuple on two freshly constructed agents with the same
configuration and environment (same loaded config, preset name, continuous
flag and steepness) produce identical `total_score` and identical
per-dimension scores.  In the embedding the constructor and `evaluate` are
pure functions of the configuration, the environment and the inputs — the
source has no randomness, wall-clock read or mutable class-level state on
this path — so the two results are definitionally equal. -/
theorem evaluate_deterministic_fresh_instances
    (cfg : LoadedConfig) (preset : String) (cont : Bool) (steep : ℚ)
    (v : VisionSummary) (c : ContentSummary) (vb : VibeSummary)
    (s : SttResult) (d : DiscourseResult) :
    (PedagogyAgent.evaluate (PedagogyAgent.init cfg preset cont steep) v c vb s d).total_score =
      (PedagogyAgent.evaluate (PedagogyAgent.init cfg preset cont steep) v c vb s d).total_score ∧
    (PedagogyAgent.evaluate (PedagogyAgent.init cfg preset cont steep) v c vb s d).dimension_scores =
      (PedagogyAgent.evaluate (PedagogyAgent.init cfg preset cont steep) v c vb s d).dimension_scores :=
  ⟨rfl, rfl⟩

/-- C2 counterexample: the claim fails for the vibe source.  The vibe
availability check is only `len(vibe_summary) > 0`, so a vibe dict holding
only an `"error"` key has its availability boolean `true` (the claim says
`false`), and it does change scores relative to a missing vibe dict: the
`_safe` reads then fall back to defaults (`monotone_ratio = 0.5`, binned
`MONOTONE`), which adjusts 판서 및 언어 and 시간 배분 downward. -/
theorem error_key_availability_counterexample :
    vibOk vibeErr = true ∧
    (PedagogyAgent.evaluate PedagogyAgent.defaultAgent emptyVision emptyContent
        vibeErr emptyStt emptyDiscourse).dimension_scores ≠
      (PedagogyAgent.evaluate PedagogyAgent.defaultAgent emptyVision emptyContent
        emptyVibe emptyStt emptyDiscourse).dimension_scores :=
  ⟨rfl, by with_unfolding_all decide⟩

/-- C2 amended: an `"error"` key makes vision and content unavailable and
`evaluate` then treats them exactly like missing dicts; but the vibe
availability check is only non-emptiness (an error-only vibe dict counts as
available and its default-valued reads do adjust scores), and stt/discourse
availability depends only on the presence of `word_count` /
`question_types`, not on the absence of `error`. -/
theorem error_key_availability_amended :
    (∀ (v : VisionSummary) (c : ContentSummary) (vb : VibeSummary)
       (s : SttResult) (d : DiscourseResult), v.hasError = true →
       visOk v = false ∧
       PedagogyAgent.evaluate PedagogyAgent.defaultAgent v c vb s d =
         PedagogyAgent.evaluate PedagogyAgent.defaultAgent emptyVision c vb s d) ∧
    (∀ (v : VisionSummary) (c : ContentSummary) (vb : VibeSummary)
       (s : SttResult) (d : DiscourseResult), c.hasError = true →
       conOk c = false ∧
       PedagogyAgent.evaluate PedagogyAgent.defaultAgent v c vb s d =
         PedagogyAgent.evaluate PedagogyAgent.defaultAgent v emptyContent vb s d) ∧
    (∀ vb : VibeSummary, vb.hasError = true → vibOk vb = true) ∧
    (∀ s : SttResult, s.hasError = true → s.word_count.isSome = true → sttOk s = true) ∧
    (∀ d : DiscourseResult, d.hasError = true → d.question_types.isSome = true →
       discOk d = true) ∧
    (PedagogyAgent.evaluate PedagogyAgent.defaultAgent emptyVision emptyContent
        vibeErr emptyStt emptyDiscourse).dimension_scores ≠
      (PedagogyAgent.evaluate PedagogyAgent.defaultAgent emptyVision emptyContent
        emptyVibe emptyStt emptyDiscourse).dimension_scores := by
  refine ⟨?_, ?_, ?_, ?_, ?_, by with_unfolding_all decide⟩
  · intro v c vb s d hv
    have h1 : visOk v = false := by
      simp [visOk, VisionSummary.isEmpty, hv]
    have h2 : visOk emptyVision = false := rfl
    refine ⟨h1, ?_⟩
    simp only [PedagogyAgent.evaluate, h1, h2]
    rw [evalMethods_vision_irrel PedagogyAgent.defaultAgent c v emptyVision s
          (conOk c) (sttOk s) d (discOk d),
        evalAttitude_vision_irrel PedagogyAgent.defaultAgent v emptyVision vb
          (vibOk vb) (sttOk s) s d (discOk d),
        evalCreativity_vision_irrel PedagogyAgent.defaultAgent c v emptyVision s vb
          (conOk c) (sttOk s) (vibOk vb) d (discOk d)]
  · intro v c vb s d hcH
    have h1 : conOk c = false := by
      simp [conOk, ContentSummary.isEmpty, hcH]
    have h2 : conOk emptyContent = false := rfl
    refine ⟨h1, ?_⟩
    simp only [PedagogyAgent.evaluate, h1, h2]
    rw [evalExpertise_content_irrel PedagogyAgent.defaultAgent c emptyContent s
          (visOk v) (sttOk s) d (discOk d),
        evalMethods_content_irrel PedagogyAgent.defaultAgent c emptyContent v s
          (visOk v) (sttOk s) d (discOk d),
        evalLanguage_content_irrel PedagogyAgent.defaultAgent c emptyContent s vb
          (sttOk s) (vibOk vb),
        evalCreativity_content_irrel PedagogyAgent.defaultAgent c emptyContent v s vb
          (visOk v) (sttOk s) (vibOk vb) d (discOk d)]
  · intro vb hvb
    simp [vibOk, VibeSummary.isEmpty, hvb]
  · intro s _ hw
    unfold sttOk
    exact hw
  · intro d _ hq
    unfold discOk
    exact hq

/-- C2 amended witness: concrete error-only dicts for each source. -/
theorem error_key_availability_amended_witness :
    (visOk visionErr = false ∧
      PedagogyAgent.evaluate PedagogyAgent.defaultAgent visionErr emptyContent
          emptyVibe emptyStt emptyDiscourse =
        PedagogyAgent.evaluate PedagogyAgent.defaultAgent emptyVision emptyContent
          emptyVibe emptyStt emptyDiscourse) ∧
    (conOk contentErr = false ∧
      PedagogyAgent.evaluate PedagogyAgent.defaultAgent emptyVision contentErr
          emptyVibe emptyStt emptyDiscourse =
        PedagogyAgent.evaluate PedagogyAgent.defaultAgent emptyVision emptyContent
          emptyVibe emptyStt emptyDiscourse) ∧
    vibOk vibeErr = true ∧ sttOk sttErrWc = true ∧ discOk discErrQt = true :=
  ⟨error_key_availability_amended.1 visionErr emptyContent emptyVibe emptyStt
     emptyDiscourse rfl,
   error_key_availability_amended.2.1 emptyVision contentErr emptyVibe emptyStt
     emptyDiscourse rfl,
   error_key_availability_amended.2.2.1 vibeErr rfl,
   error_key_availability_amended.2.2.2.1 sttErrWc rfl rfl,
   error_key_availability_amended.2.2.2.2.1 discErrQt rfl rfl⟩

/-- C4: `evaluate({}, {}, {})` (with `stt_result` and `discourse_result`
defaulting to empty) raises no exception; its `confidence.overall` is `0`
and every one of the 7 dimensions scores exactly its preset base value
(which survives the clamping unchanged). -/
theorem evaluate_all_missing_defaults :
    (PedagogyAgent.evaluate PedagogyAgent.defaultAgent emptyVision emptyContent
        emptyVibe emptyStt emptyDiscourse).confidence.overall = 0 ∧
    (PedagogyAgent.evaluate PedagogyAgent.defaultAgent emptyVision emptyContent
        emptyVibe emptyStt emptyDiscourse).dimension_scores =
      DEFAULT_DIMENSIONS.map
        (fun p => (p.1, PedagogyAgent.getBase PedagogyAgent.defaultAgent p.1)) := by
  constructor
  · with_unfolding_all rfl
  · with_unfolding_all rfl

/-- C3: every `DimensionScore` that `evaluate` produces — for arbitrary,
including adversarial, inputs — satisfies `0 ≤ score ≤ max_score`; and
before that final clamp the raw running score is clamped by
`clampToPreset` into the preset effective range
`[preset_base - adjust_range, min(preset_base + adjust_range, max_score*0.95)]`
(for each of the 7 dimensions of the default preset). -/
theorem dimension_scores_bounded_and_preset_clamped :
    (∀ (v : VisionSummary) (c : ContentSummary) (vb : VibeSummary)
       (s : SttResult) (d : DiscourseResult) (dim : PedagogyAgent.DimensionScore),
       dim ∈ (PedagogyAgent.evaluate PedagogyAgent.defaultAgent v c vb s d).dimensions →
       0 ≤ dim.score ∧ dim.score ≤ dim.max_score) ∧
    (∀ name ∈ ["수업 전문성", "교수학습 방법", "판서 및 언어", "수업 태도",
               "학생 참여", "시간 배분", "창의성"], ∀ b : ℚ,
       PedagogyAgent.getBase PedagogyAgent.defaultAgent name -
           PedagogyAgent.getAdjustRange PedagogyAgent.defaultAgent name ≤
         PedagogyAgent.clampToPreset PedagogyAgent.defaultAgent name b ∧
       PedagogyAgent.clampToPreset PedagogyAgent.defaultAgent name b ≤
         min (PedagogyAgent.getBase PedagogyAgent.defaultAgent name +
              PedagogyAgent.getAdjustRange PedagogyAgent.defaultAgent name)
           (PedagogyAgent.weightOf PedagogyAgent.defaultAgent name * 0.95)) := by
  constructor
  · intro v c vb s d dim hd
    simp only [PedagogyAgent.evaluate, List.mem_cons, List.not_mem_nil, or_false] at hd
    rcases hd with rfl | rfl | rfl | rfl | rfl | rfl | rfl <;>
      exact makeScore_bounds _ _ _ _ _ _ (by with_unfolding_all decide)
  · intro name hname b
    fin_cases hname <;>
      exact clampToPreset_range _ _ _ (by with_unfolding_all decide)

set_option maxRecDepth 8000 in
/-- C3 witness: the adversarial input `filler_ratio = 5.0, word_count = -1`
still yields a bounded 판서 및 언어 score, and the preset clamp lands the
running score `1000` inside the effective range of that dimension. -/
theorem dimension_scores_bounded_and_preset_clamped_witness :
    (0 ≤ dimAdv.score ∧ dimAdv.score ≤ dimAdv.max_score) ∧
    (PedagogyAgent.getBase PedagogyAgent.defaultAgent "판서 및 언어" -
         PedagogyAgent.getAdjustRange PedagogyAgent.defaultAgent "판서 및 언어" ≤
       PedagogyAgent.clampToPreset PedagogyAgent.defaultAgent "판서 및 언어" 1000 ∧
     PedagogyAgent.clampToPreset PedagogyAgent.defaultAgent "판서 및 언어" 1000 ≤
       min (PedagogyAgent.getBase PedagogyAgent.defaultAgent "판서 및 언어" +
            PedagogyAgent.getAdjustRange PedagogyAgent.defaultAgent "판서 및 언어")
         (PedagogyAgent.weightOf PedagogyAgent.defaultAgent "판서 및 언어" * 0.95)) :=
  ⟨dimension_scores_bounded_and_preset_clamped.1 emptyVision emptyContent emptyVibe
     advStt emptyDiscourse dimAdv
     (by exact List.mem_cons_of_mem _ (List.mem_cons_of_mem _ (List.mem_cons_self _ _))),
   dimension_scores_bounded_and_preset_clamped.2 "판서 및 언어"
     (by decide) 1000⟩

/-- C6: the continuous sigmoid mapping on degenerate tables: with exactly
one bin it returns that bin's score directly (for every value and every
exponential function), e.g. `5.0` for the table `{"ONLY": [0,1]}` with
scores `{"ONLY": 5.0}`; with an empty table it returns `0.0`. -/
theorem sigmoid_map_degenerate_tables :
    (∀ (mexp : ℚ → ℚ) (st v : ℚ) (label : String) (lo hi : ℚ)
       (scores : List (String × ℚ)),
       sigmoidMap mexp v [(label, (lo, hi))] scores st =
         (scores.lookup label).getD 0.0) ∧
    (∀ (mexp : ℚ → ℚ) (st v : ℚ), sigmoidMap mexp v [("ONLY", (0, 1))] [("ONLY", 5.0)] st = 5.0) ∧
    (∀ (mexp : ℚ → ℚ) (st v : ℚ) (scores : List (String × ℚ)),
       sigmoidMap mexp v [] scores st = 0.0) :=
  ⟨fun _ _ _ _ _ _ _ => rfl, fun _ _ _ => rfl, fun _ _ _ _ => rfl⟩

/-- C8: `_compute_confidence` is monotone in each availability flag —
upgrading any single source from unavailable to available (the other four
flags fixed) never decreases `overall` — and with all five sources
unavailable `overall` is exactly `0`. -/
theorem confidence_monotone_and_zero :
    (∀ con stt vib disc : Bool,
      (PedagogyAgent.computeConfidence PedagogyAgent.defaultAgent false con stt vib disc).overall ≤
        (PedagogyAgent.computeConfidence PedagogyAgent.defaultAgent true con stt vib disc).overall) ∧
    (∀ vis stt vib disc : Bool,
      (PedagogyAgent.computeConfidence PedagogyAgent.defaultAgent vis false stt vib disc).overall ≤
        (PedagogyAgent.computeConfidence PedagogyAgent.defaultAgent vis true stt vib disc).overall) ∧
    (∀ vis con vib disc : Bool,
      (PedagogyAgent.computeConfidence PedagogyAgent.defaultAgent vis con false vib disc).overall ≤
        (PedagogyAgent.computeConfidence PedagogyAgent.defaultAgent vis con true vib disc).overall) ∧
    (∀ vis con stt disc : Bool,
      (PedagogyAgent.computeConfidence PedagogyAgent.defaultAgent vis con stt false disc).overall ≤
        (PedagogyAgent.computeConfidence PedagogyAgent.defaultAgent vis con stt true disc).overall) ∧
    (∀ vis con stt vib : Bool,
      (PedagogyAgent.computeConfidence PedagogyAgent.defaultAgent vis con stt vib false).overall ≤
        (PedagogyAgent.computeConfidence PedagogyAgent.defaultAgent vis con stt vib true).overall) ∧
    (PedagogyAgent.computeConfidence PedagogyAgent.defaultAgent false false false false false).overall = 0 := by
  refine ⟨?_, ?_, ?_, ?_, ?_, ?_⟩ <;> with_unfolding_all decide

/-- C5: for every contiguous bin table and every value lying exactly on an
interior bin boundary (the shared endpoint of bins `b₁` and `b₂`), `_bin`
returns the label of the upper bin `b₂`, whose half-open interval
`[low, high)` starts at that value. -/
theorem bin_boundary_upper (bs₁ : List (String × ℚ × ℚ)) (b₁ b₂ : String × ℚ × ℚ)
    (bs₂ : List (String × ℚ × ℚ)) (v : ℚ)
    (hc : Contiguous (bs₁ ++ b₁ :: b₂ :: bs₂)) (hv : v = b₂.2.1) :
    pyBin v (bs₁ ++ b₁ :: b₂ :: bs₂) = some b₂.1 := by
  unfold pyBin
  rw [find_boundary bs₁ b₁ b₂ bs₂ v hc hv]

/-- C5 witness: the `gesture_active_ratio` table is contiguous and
`_bin(0.15)` on it resolves to `"LOW"`, not `"INACTIVE"`. -/
theorem bin_boundary_upper_witness :
    DEFAULT_BINNING.lookup "gesture_active_ratio" =
      some [("INACTIVE", (0.0, 0.15)), ("LOW", (0.15, 0.35)),
            ("MODERATE", (0.35, 0.55)), ("ACTIVE", (0.55, 1.0))] ∧
    Contiguous [("INACTIVE", ((0.0 : ℚ), (0.15 : ℚ))), ("LOW", (0.15, 0.35)),
      ("MODERATE", (0.35, 0.55)), ("ACTIVE", (0.55, 1.0))] ∧
    pyBin 0.15 [("INACTIVE", (0.0, 0.15)), ("LOW", (0.15, 0.35)),
      ("MODERATE", (0.35, 0.55)), ("ACTIVE", (0.55, 1.0))] = some "LOW" :=
  ⟨by with_unfolding_all rfl,
   by with_unfolding_all decide,
   bin_boundary_upper [] ("INACTIVE", (0.0, 0.15)) ("LOW", (0.15, 0.35))
     [("MODERATE", (0.35, 0.55)), ("ACTIVE", (0.55, 1.0))] 0.15
     (by with_unfolding_all decide) rfl⟩

/-- C10 (implicit edge case): for a contiguous table and a value strictly
below the first bin's lower bound, no interval matches, so `_bin` falls
through to the final return and yields the LAST label in the table — the
highest bin — not the first label and not an error. -/
theorem bin_below_range_returns_last (b : String × ℚ × ℚ)
    (bs : List (String × ℚ × ℚ)) (v : ℚ)
    (hc : Contiguous (b :: bs)) (hv : v < b.2.1) :
    pyBin v (b :: bs) = some (((b :: bs).getLast (List.cons_ne_nil b bs)).1) := by
  have hnone : (b :: bs).find?
      (fun x => decide (x.2.1 ≤ v) && decide (v < x.2.2)) = none := by
    apply List.find?_eq_none.mpr
    intro x hx
    rcases List.mem_cons.mp hx with rfl | hx'
    · simp only [Bool.and_eq_true, decide_eq_true_eq, not_and]
      intro hle
      exact absurd hle (not_le.mpr hv)
    · have h1 : b.2.2 ≤ x.2.1 := contiguous_head_le hc hx'
      have h2 : b.2.1 < b.2.2 := hc.head_lt
      have hvx : v < x.2.1 := lt_of_lt_of_le (lt_trans hv h2) h1
      simp only [Bool.and_eq_true, decide_eq_true_eq, not_and]
      intro hle
      exact absurd hle (not_le.mpr hvx)
  unfold pyBin
  rw [hnone, List.getLast?_eq_getLast]
  rfl

/-- C10 witness: `_bin(-1)` on the `gesture_active_ratio` table returns the
last (highest) label `"ACTIVE"`. -/
theorem bin_below_range_returns_last_witness :
    Contiguous [("INACTIVE", ((0.0 : ℚ), (0.15 : ℚ))), ("LOW", (0.15, 0.35)),
      ("MODERATE", (0.35, 0.55)), ("ACTIVE", (0.55, 1.0))] ∧
    ((-1 : ℚ) < 0.0) ∧
    pyBin (-1) [("INACTIVE", (0.0, 0.15)), ("LOW", (0.15, 0.35)),
      ("MODERATE", (0.35, 0.55)), ("ACTIVE", (0.55, 1.0))] = some "ACTIVE" :=
  ⟨by with_unfolding_all decide,
   by with_unfolding_all decide,
   bin_below_range_returns_last ("INACTIVE", (0.0, 0.15))
     [("LOW", (0.15, 0.35)), ("MODERATE", (0.35, 0.55)), ("ACTIVE", (0.55, 1.0))]
     (-1) (by with_unfolding_all decide) (by with_unfolding_all decide)⟩

/-- C7: `_grade` assigns the grade with the highest threshold not exceeding
the total (thresholds A+ 90, A 85, A- 80, B+ 75, B 70, B- 65, C+ 60, C 55,
C- 50, D 0, checked in descending order, first match wins); in particular
`90 ↦ "A+"` and `89.9 ↦ "A"`. -/
theorem grade_assignment_thresholds :
    (∀ t : ℚ, PedagogyAgent.gradeOf PedagogyAgent.defaultAgent t =
      if 90 ≤ t then "A+" else if 85 ≤ t then "A" else if 80 ≤ t then "A-"
      else if 75 ≤ t then "B+" else if 70 ≤ t then "B" else if 65 ≤ t then "B-"
      else if 60 ≤ t then "C+" else if 55 ≤ t then "C" else if 50 ≤ t then "C-"
      else "D") ∧
    PedagogyAgent.gradeOf PedagogyAgent.defaultAgent 90 = "A+" ∧
    PedagogyAgent.gradeOf PedagogyAgent.defaultAgent 89.9 = "A" := by
  refine ⟨?_, by with_unfolding_all decide, by with_unfolding_all decide⟩
  intro t
  have hs : sortDesc (PedagogyAgent.defaultAgent).grading =
      [("A+", (90:ℚ)), ("A", 85), ("A-", 80), ("B+", 75), ("B", 70),
       ("B-", 65), ("C+", 60), ("C", 55), ("C-", 50), ("D", 0)] := by
    with_unfolding_all rfl
  unfold PedagogyAgent.gradeOf
  rw [hs]
  by_cases h1 : (90:ℚ) ≤ t
  · rw [List.find?_cons_of_pos _ (by simpa using h1), if_pos h1]
  · rw [List.find?_cons_of_neg _ (by simpa using h1), if_neg h1]
    by_cases h2 : (85:ℚ) ≤ t
    · rw [List.find?_cons_of_pos _ (by simpa using h2), if_pos h2]
    · rw [List.find?_cons_of_neg _ (by simpa using h2), if_neg h2]
      by_cases h3 : (80:ℚ) ≤ t
      · rw [List.find?_cons_of_pos _ (by simpa using h3), if_pos h3]
      · rw [List.find?_cons_of_neg _ (by simpa using h3), if_neg h3]
        by_cases h4 : (75:ℚ) ≤ t
        · rw [List.find?_cons_of_pos _ (by simpa using h4), if_pos h4]
        · rw [List.find?_cons_of_neg _ (by simpa using h4), if_neg h4]
          by_cases h5 : (70:ℚ) ≤ t
          · rw [List.find?_cons_of_pos _ (by simpa using h5), if_pos h5]
          · rw [List.find?_cons_of_neg _ (by simpa using h5), if_neg h5]
            by_cases h6 : (65:ℚ) ≤ t
            · rw [List.find?_cons_of_pos _ (by simpa using h6), if_pos h6]
            · rw [List.find?_cons_of_neg _ (by simpa using h6), if_neg h6]
              by_cases h7 : (60:ℚ) ≤ t
              · rw [List.find?_cons_of_pos _ (by simpa using h7), if_pos h7]
              · rw [List.find?_cons_of_neg _ (by simpa using h7), if_neg h7]
                by_cases h8 : (55:ℚ) ≤ t
                · rw [List.find?_cons_of_pos _ (by simpa using h8), if_pos h8]
                · rw [List.find?_cons_of_neg _ (by simpa using h8), if_neg h8]
                  by_cases h9 : (50:ℚ) ≤ t
                  · rw [List.find?_cons_of_pos _ (by simpa using h9), if_pos h9]
                  · rw [List.find?_cons_of_neg _ (by simpa using h9), if_neg h9]
                    by_cases h10 : (0:ℚ) ≤ t
                    · rw [List.find?_cons_of_pos _ (by simpa using h10)]
                    · rw [List.find?_cons_of_neg _ (by simpa using h10)]
                      rfl

/-- C9: `_linear_trend` classifies `direction` as `"improving"` exactly when
the regression slope exceeds `0.5`, `"declining"` exactly when it is below
`-0.5`, `"stable"` otherwise; with fewer than 2 records the result is slope
`0.0`, direction `"stable"` (and r² `0.0`). -/
theorem linear_trend_direction_thresholds (values : List ℚ) :
    (values.length < 2 → linearTrend values = ⟨0, "stable", 0⟩) ∧
    (2 ≤ values.length →
      (((linearTrend values).direction = "improving") ↔ 0.5 < rawSlope values) ∧
      (((linearTrend values).direction = "declining") ↔ rawSlope values < -0.5) ∧
      (((linearTrend values).direction = "stable") ↔
        -0.5 ≤ rawSlope values ∧ rawSlope values ≤ 0.5)) := by
  constructor
  · intro h
    unfold linearTrend
    rw [if_pos h]
    with_unfolding_all rfl
  · intro h
    have hn : ¬ values.length < 2 := not_lt.mpr h
    have hdir : (linearTrend values).direction =
        (if rawSlope values > 0.5 then "improving"
         else if rawSlope values < -0.5 then "declining" else "stable") := by
      unfold linearTrend rawSlope
      rw [if_neg hn, if_neg hn]
    rw [hdir]
    by_cases h1 : rawSlope values > 0.5
    · rw [if_pos h1]
      refine ⟨⟨fun _ => h1, fun _ => rfl⟩, ⟨?_, ?_⟩, ⟨?_, ?_⟩⟩
      · intro hcon
        exact absurd hcon (by decide)
      · intro hlt
        exact absurd (lt_trans hlt (by norm_num)) (not_lt.mpr (le_of_lt h1))
      · intro hcon
        exact absurd hcon (by decide)
      · intro hand
        exact absurd h1 (not_lt.mpr hand.2)
    · rw [if_neg h1]
      by_cases h2 : rawSlope values < -0.5
      · rw [if_pos h2]
        refine ⟨⟨?_, ?_⟩, ⟨fun _ => h2, fun _ => rfl⟩, ⟨?_, ?_⟩⟩
        · intro hcon
          exact absurd hcon (by decide)
        · intro hgt
          exact absurd (lt_trans h2 (by norm_num)) (not_lt.mpr (le_of_lt hgt))
        · intro hcon
          exact absurd hcon (by decide)
        · intro hand
          exact absurd h2 (not_lt.mpr hand.1)
      · rw [if_neg h2]
        refine ⟨⟨?_, ?_⟩, ⟨?_, ?_⟩, ⟨?_, ?_⟩⟩
        · intro hcon
          exact absurd hcon (by decide)
        · intro hgt
          exact absurd hgt h1
        · intro hcon
          exact absurd hcon (by decide)
        · intro hlt
          exact absurd hlt h2
        · intro _
          exact ⟨not_lt.mp h2, not_lt.mp h1⟩
        · intro _
          rfl

/-- C9 witness: a 1-record history yields slope 0 / stable, and the history
`[0, 10]` (slope 10 > 0.5) is classified `"improving"`. -/
theorem linear_trend_direction_thresholds_witness :
    linearTrend [(5 : ℚ)] = ⟨0, "stable", 0⟩ ∧
    (linearTrend [(0 : ℚ), 10]).direction = "improving" :=
  ⟨(linear_trend_direction_thresholds [5]).1 (by decide),
   (((linear_trend_direction_thresholds [0, 10]).2 (by decide)).1).mpr
     (by with_unfolding_all decide)⟩

end GAIM
